import Mathlib

/-!
Shallow embedding of the BlueZ Android HAL IPC transport
(`src/android/hal-ipc.c`) and proofs about its command round trip,
notification receive loop, initialization and teardown.

Sockets, threads and the peer daemon are modelled by passing the results of
each system call (`sendmsg`, `recvmsg`, `poll`, `accept`, `pthread_create`)
explicitly as inputs; byte buffers are `List Nat` (each element one byte);
file descriptors are `Int` with the source's sentinel value `-1`.
-/

set_option linter.unusedVariables false

namespace HalIpc

/-- Modelled from the spec: `hal-msg.h` is not under `src/`.  The reserved
error opcode carried by application-level error responses (§4.2, §6). -/
def HAL_MSG_OP_ERROR : Nat := 0x00

/-- Modelled from the spec: `hal-msg.h` is not under `src/`.  The minimum
valid event opcode for notifications (§4.3). -/
def HAL_MSG_MINIMUM_EVENT : Nat := 0x81

/-- Modelled from the spec: `hal-msg.h` is not under `src/`.  Size in bytes
of the receive buffer `char buf[BLUEZ_HAL_MTU]` of `notification_handler`. -/
def BLUEZ_HAL_MTU : Nat := 1024

/-- Modelled from the spec: `hardware/bluetooth.h` is not under `src/`.
The success status returned by `hal_ipc_cmd` (§4.2, §7: "application errors
surface as a status code from `call`"). -/
def BT_STATUS_SUCCESS : Nat := 0

/-- Size in bytes of `struct hal_msg_hdr`: `service_id: u8`, `opcode: u8`,
`length: u16`, packed with no padding (spec §6, wire header layout). -/
def hal_msg_hdr_size : Nat := 4

/-- Modelled from the spec: `hal-msg.h` is not under `src/`.  Size in bytes
of `struct hal_msg_rsp_error`, "a fixed-size structure whose sole field is a
status code" (§6); status codes are one byte. -/
def hal_msg_rsp_error_size : Nat := 1

/-- Linux value of `SOL_SOCKET`, the cmsg level tested at lines 122 and 357. -/
def SOL_SOCKET : Nat := 1

/-- Linux value of `SCM_RIGHTS`, the cmsg type tested at lines 123 and 358. -/
def SCM_RIGHTS : Nat := 1

/-- The wire header `struct hal_msg_hdr` (spec §6): service id, opcode, payload length. -/
structure HalMsgHdr where
  service_id : Nat
  opcode : Nat
  len : Nat
deriving Repr, DecidableEq

/-- Decode a `struct hal_msg_hdr` from the first four received bytes.  The
receive buffers are zeroed (`memset`) before `recvmsg`, so missing bytes read
as `0`; both callers reject short reads before using the header anyway.  The
two-byte length field is taken in a fixed byte order (spec §6: "all
multi-byte header fields use a single consistent byte order"). -/
def parse_hdr (bytes : List Nat) : HalMsgHdr :=
  { service_id := bytes.getD 0 0
    opcode := bytes.getD 1 0
    len := bytes.getD 2 0 + 256 * bytes.getD 3 0 }

/-- Encode a `struct hal_msg_hdr` into its four wire bytes. -/
def encode_hdr (service_id opcode len : Nat) : List Nat :=
  [service_id % 256, opcode % 256, len % 256, (len / 256) % 256]

/-- The single record handed to `sendmsg` by `hal_ipc_cmd` (lines 278-289):
iovec 0 is the header, iovec 1 the `len`-byte payload, sent as one message. -/
def cmd_wire (service_id opcode len : Nat) (param : List Nat) : List Nat :=
  encode_hdr service_id opcode len ++ param.take len

/-- One ancillary-data control message as seen by `CMSG_FIRSTHDR` /
`CMSG_NXTHDR`; `data` is the passed descriptor when the level/type is
`SOL_SOCKET`/`SCM_RIGHTS`. -/
structure Cmsg where
  cmsg_level : Nat
  cmsg_type : Nat
  data : Int
deriving Repr, DecidableEq

/-- Result of a `recvmsg` call: a negative return (`err`), or a received
record (its data bytes) together with its list of control messages. -/
inductive RecvResult where
  | err : Int → RecvResult
  | ok : List Nat → List Cmsg → RecvResult
deriving Repr, DecidableEq

/-- The ancillary-data scan shared verbatim by `notification_handler`
(lines 120-127) and `hal_ipc_cmd` (lines 355-362):

    for (cmsg = CMSG_FIRSTHDR(&msg); !cmsg; cmsg = CMSG_NXTHDR(&msg, cmsg)) {
        if (cmsg->cmsg_level == SOL_SOCKET && cmsg->cmsg_type == SCM_RIGHTS) {
            memcpy(&fd, CMSG_DATA(cmsg), sizeof(int));
            break;
        }
    }

The continuation condition is `!cmsg`, so the body runs exactly when `cmsg`
is NULL: if the control-message list is non-empty, `CMSG_FIRSTHDR` is
non-NULL, the loop exits immediately and `fd` keeps the `-1` it was
initialized to just before the loop; if the list is empty, `CMSG_FIRSTHDR`
is NULL and the first body iteration dereferences the NULL `cmsg`
(undefined behavior), modelled as `none`.  `some v` is the value left in
`fd` after the loop. -/
def cmsg_fd_loop (cmsgs : List Cmsg) : Option Int :=
  match cmsgs with
  | [] => none
  | _ :: _ => some (-1)

/-- Caller-visible outcome of a returning `hal_ipc_cmd` call: the returned
status, the contents of the caller's response buffer after the call and the
value of `*rsp_len` after the call (both `none` when the caller passed no
buffer, in which case the private scratch error buffer was used), and the
value of `*fd` after the call (`none` when the caller passed `fd == NULL`). -/
structure CmdOk where
  status : Nat
  rspOut : Option (List Nat)
  rspLenOut : Option Nat
  fdOut : Option Int
deriving Repr, DecidableEq

/-- Result of `hal_ipc_cmd`: `fatal` models `exit(EXIT_FAILURE)`, `undef`
models the NULL `cmsg` dereference in the ancillary-data scan, `ret o`
models returning to the caller with outcome `o`. -/
inductive CmdResult where
  | fatal : CmdResult
  | undef : CmdResult
  | ret : CmdOk → CmdResult
deriving Repr, DecidableEq

/-- Holds (`true`) exactly on the process-terminating (`exit(EXIT_FAILURE)`) result. -/
def CmdResult.isFatal : CmdResult → Bool
  | .fatal => true
  | _ => false

/-- The `*fd` slot contents after a returning call (`none` if the call did
not return to the caller). -/
def CmdResult.fdOut? : CmdResult → Option (Option Int)
  | .ret o => some o.fdOut
  | _ => none

/-- Response phase of `hal_ipc_cmd` (lines 300-368), after `sendmsg` and
`recvmsg` succeeded.  `opcode` is the request opcode; `rspIn` is the
caller's response buffer contents (`none` when `!rsp || !rsp_len`, in which
case the zeroed scratch `struct hal_msg_rsp_error` of `hal_msg_rsp_error_size`
bytes stands in, its address also replacing `rsp_len`); `fdIn` is the prior
contents of the caller's `fd` slot (`none` when `fd == NULL`); `data` and
`cmsgs` are the received record.  `recvmsg` deposits the first four bytes
into `hal_msg` and up to `*rsp_len` further bytes into the response buffer,
so the record is truncated at `hal_msg_hdr_size + *rsp_len` and the buffer's
leading bytes are overwritten by the body. -/
def hal_ipc_cmd_resp (opcode : Nat) (rspIn : Option (List Nat))
    (fdIn : Option Int) (data : List Nat) (cmsgs : List Cmsg) : CmdResult :=
  let rspBuf := rspIn.getD (List.replicate hal_msg_rsp_error_size 0)
  let received := data.take (hal_msg_hdr_size + rspBuf.length)
  let ret := received.length
  let hal_msg := parse_hdr received
  let body := received.drop hal_msg_hdr_size
  let rsp' := body ++ rspBuf.drop body.length
  if ret < hal_msg_hdr_size then .fatal
  else if ret ≠ hal_msg_hdr_size + hal_msg.len then .fatal
  else if hal_msg.opcode ≠ opcode ∧ hal_msg.opcode ≠ HAL_MSG_OP_ERROR then
    .fatal
  else if hal_msg.opcode = HAL_MSG_OP_ERROR then
    -- struct hal_msg_rsp_error *err = rsp; return err->status;
    .ret { status := rsp'.headD 0
           rspOut := rspIn.map fun _ => rsp'
           rspLenOut := rspIn.map fun r => r.length
           fdOut := fdIn }
  else
    match fdIn with
    | none =>
      .ret { status := BT_STATUS_SUCCESS
             rspOut := rspIn.map fun _ => rsp'
             rspLenOut := rspIn.map fun _ => hal_msg.len
             fdOut := none }
    | some _ =>
      -- *fd = -1; then the ancillary-data scan (lines 350-363)
      match cmsg_fd_loop cmsgs with
      | none => .undef
      | some v =>
        .ret { status := BT_STATUS_SUCCESS
               rspOut := rspIn.map fun _ => rsp'
               rspLenOut := rspIn.map fun _ => hal_msg.len
               fdOut := some v }

/-- The command round trip `hal_ipc_cmd` (lines 253-369).  `cmd_sk` is the command socket global;
`sendRet` is what `sendmsg` returned for the single two-iovec record
`cmd_wire service_id opcode len param`; `recv` is what `recvmsg` returned.
The mutex serializes callers and does not affect the single call modelled. -/
def hal_ipc_cmd (cmd_sk : Int) (service_id opcode len : Nat)
    (param : List Nat) (rspIn : Option (List Nat)) (fdIn : Option Int)
    (sendRet : Int) (recv : RecvResult) : CmdResult :=
  if cmd_sk < 0 then .fatal
  else if sendRet < 0 then .fatal
  else
    match recv with
    | .err _ => .fatal
    | .ok data cmsgs => hal_ipc_cmd_resp opcode rspIn fdIn data cmsgs

/-- One outcome of the `notification_handler` loop body (lines 69-130):
`fatal` models `exit(EXIT_FAILURE)`; `stopped` models `break` out of the
loop, after which the thread closes `notif_sk` and exits (the Stopped
state); `undef` models the NULL `cmsg` dereference; `dispatch hdr payload fd`
models the call to `notification_dispatch(hal_msg, fd)`. -/
inductive NotifStep where
  | fatal : NotifStep
  | stopped : NotifStep
  | undef : NotifStep
  | dispatch : HalMsgHdr → List Nat → Int → NotifStep
deriving Repr, DecidableEq

/-- Holds (`true`) exactly on the process-terminating (`exit(EXIT_FAILURE)`) step. -/
def NotifStep.isFatal : NotifStep → Bool
  | .fatal => true
  | _ => false

/-- Holds (`true`) exactly when the step invokes the dispatch callback. -/
def NotifStep.isDispatch : NotifStep → Bool
  | .dispatch _ _ _ => true
  | _ => false

/-- One iteration of `notification_handler` (lines 69-130) as a function of
the command-socket global `cmd_sk` and the `recvmsg` result on `notif_sk`.
The receive buffer is `buf[BLUEZ_HAL_MTU]`, so a record is truncated at
`BLUEZ_HAL_MTU` bytes. -/
def notification_step (cmd_sk : Int) (recv : RecvResult) : NotifStep :=
  match recv with
  | .err _ => .fatal
  | .ok data cmsgs =>
    let received := data.take BLUEZ_HAL_MTU
    let ret := received.length
    let hal_msg := parse_hdr received
    if ret = 0 then
      -- socket was shutdown
      if cmd_sk = -1 then .stopped else .fatal
    else if ret < hal_msg_hdr_size then .fatal
    else if hal_msg.opcode < HAL_MSG_MINIMUM_EVENT then .fatal
    else if ret ≠ hal_msg_hdr_size + hal_msg.len then .fatal
    else
      match cmsg_fd_loop cmsgs with
      | none => .undef
      | some fd => .dispatch hal_msg (received.drop hal_msg_hdr_size) fd

/-- Environment of one `accept_connection` call (lines 140-170): the results
of its `poll` and `accept` system calls. -/
structure AcceptEnv where
  pollRet : Int
  acceptRet : Int
deriving Repr, DecidableEq

/-- The bounded-wait accept `accept_connection` (lines 140-170): poll with the 5000 ms timeout, then
accept; any failure or timeout yields `-1`, success yields the new socket. -/
def accept_connection (e : AcceptEnv) : Int :=
  if e.pollRet < 0 then -1
  else if e.pollRet = 0 then -1
  else if e.acceptRet < 0 then -1
  else e.acceptRet

/-- Environment of one `hal_ipc_init` call: results of `socket`, `bind`,
`listen`, the two `accept_connection` phases, and `pthread_create` (which
returns `0` on success and a positive error number on failure). -/
structure InitEnv where
  socketRet : Int
  bindRet : Int
  listenRet : Int
  acceptCmd : AcceptEnv
  acceptNotif : AcceptEnv
  pthreadCreateRet : Int
deriving Repr, DecidableEq

/-- Outcome of `hal_ipc_init`: the returned boolean, the two socket globals
after the call, whether the notification thread is actually running
(`pthread_create` returned `0`), and the descriptors opened by the call that
are still open when it returns. -/
structure InitResult where
  ok : Bool
  cmd_sk : Int
  notif_sk : Int
  threadSpawned : Bool
  openFds : List Int
deriving Repr, DecidableEq

/-- Connection setup `hal_ipc_init` (lines 172-240).  Each failing step closes what was
opened before it and returns `false`; the `pthread_create` result is tested
with `if (err < 0)` exactly as at line 228. -/
def hal_ipc_init (e : InitEnv) : InitResult :=
  if e.socketRet < 0 then
    { ok := false, cmd_sk := -1, notif_sk := -1
      threadSpawned := false, openFds := [] }
  else
    let sk := e.socketRet
    if e.bindRet < 0 then
      -- close(sk)
      { ok := false, cmd_sk := -1, notif_sk := -1
        threadSpawned := false, openFds := [] }
    else if e.listenRet < 0 then
      -- close(sk)
      { ok := false, cmd_sk := -1, notif_sk := -1
        threadSpawned := false, openFds := [] }
    else
      let cmd := accept_connection e.acceptCmd
      if cmd < 0 then
        -- close(sk); cmd_sk holds the -1 that accept_connection returned
        { ok := false, cmd_sk := cmd, notif_sk := -1
          threadSpawned := false, openFds := [] }
      else
        let notif := accept_connection e.acceptNotif
        if notif < 0 then
          -- close(sk); close(cmd_sk); cmd_sk = -1
          { ok := false, cmd_sk := -1, notif_sk := notif
            threadSpawned := false, openFds := [] }
        else
          -- close(sk); err = pthread_create(...)
          if e.pthreadCreateRet < 0 then
            -- notif_th = 0; close(cmd_sk); cmd_sk = -1;
            -- close(notif_sk); notif_sk = -1
            { ok := false, cmd_sk := -1, notif_sk := -1
              threadSpawned := false, openFds := [] }
          else
            { ok := true, cmd_sk := cmd, notif_sk := notif
              threadSpawned := e.pthreadCreateRet = 0
              openFds := [cmd, notif] }

/-- The three teardown actions of `hal_ipc_cleanup` in source order. -/
inductive TeardownAction where
  | close_cmd : TeardownAction
  | shutdown_rd_notif : TeardownAction
  | join_thread : TeardownAction
deriving Repr, DecidableEq

/-- Teardown `hal_ipc_cleanup` (lines 242-251): its ordered actions — `close(cmd_sk)`
(a full close, with `cmd_sk = -1`), `shutdown(notif_sk, SHUT_RD)` (a
read-direction shutdown, not a close), `pthread_join(notif_th, NULL)` — and
the value of the `cmd_sk` global from the first action on. -/
structure CleanupModel where
  trace : List TeardownAction
  cmd_sk_after_close : Int
deriving Repr, DecidableEq

def hal_ipc_cleanup : CleanupModel :=
  { trace := [.close_cmd, .shutdown_rd_notif, .join_thread]
    cmd_sk_after_close := -1 }

/-! ## Theorems about the claims -/

/-- C9: calling `hal_ipc_cmd` while the command socket is not open (the
sentinel value `-1`, i.e. before a successful initialize or after teardown)
does not return an error status to the caller; it takes the fatal path
(`exit(EXIT_FAILURE)`) and terminates the process. -/
theorem C9_cmd_on_closed_socket_fatal (service_id opcode len : Nat)
    (param : List Nat) (rspIn : Option (List Nat)) (fdIn : Option Int)
    (sendRet : Int) (recv : RecvResult) :
    hal_ipc_cmd (-1) service_id opcode len param rspIn fdIn sendRet recv =
      .fatal := by
  unfold hal_ipc_cmd
  norm_num

/-- C6: in the notification receiver loop, a zero-length read is benign
(transition to Stopped) if and only if the command channel has already been
torn down (`cmd_sk = -1`); if the command socket is still live, a
zero-length read is fatal; and a negative read result is always fatal. -/
theorem C6_zero_read_benign_iff_cmd_closed (cmd_sk : Int) (cmsgs : List Cmsg)
    (e : Int) :
    (notification_step cmd_sk (.ok [] cmsgs) = .stopped ↔ cmd_sk = -1) ∧
    (cmd_sk ≠ -1 → notification_step cmd_sk (.ok [] cmsgs) = .fatal) ∧
    notification_step cmd_sk (.err e) = .fatal := by
  unfold notification_step
  by_cases h : cmd_sk = -1 <;> simp [h]

/-- C6 witness: concrete instances — command channel torn down gives
Stopped, live command channel gives fatal, negative read gives fatal. -/
theorem C6_zero_read_witness :
    notification_step (-1) (.ok [] []) = .stopped ∧
    notification_step 4 (.ok [] []) = .fatal ∧
    notification_step (-1) (.err (-1)) = .fatal :=
  ⟨(C6_zero_read_benign_iff_cmd_closed (-1) [] (-1)).1.mpr rfl,
   (C6_zero_read_benign_iff_cmd_closed 4 [] (-1)).2.1 (by decide),
   (C6_zero_read_benign_iff_cmd_closed (-1) [] (-1)).2.2⟩

/-- C8: `hal_ipc_cleanup` performs teardown in this exact order — close the
command socket (resetting its sentinel to `-1`), then a read-direction
shutdown of the notification socket (not a full close), then join the
background thread — and after the close the background task's next
zero-length read (the shutdown unblocking it, no notification mid-read) is
benign: it reaches Stopped and invokes no fatal path. -/
theorem C8_cleanup_order_benign_stop :
    hal_ipc_cleanup.trace =
      [.close_cmd, .shutdown_rd_notif, .join_thread] ∧
    hal_ipc_cleanup.cmd_sk_after_close = -1 ∧
    ∀ cmsgs : List Cmsg,
      notification_step hal_ipc_cleanup.cmd_sk_after_close (.ok [] cmsgs) =
        .stopped := by
  refine ⟨rfl, rfl, fun cmsgs => ?_⟩
  unfold notification_step hal_ipc_cleanup
  simp

/-- C5: for every response received by `hal_ipc_cmd` to a request with
opcode `opcode`, if the response opcode equals neither `opcode` nor the
reserved error opcode, the call takes the fatal path (process termination)
and never returns a result to the caller. -/
theorem C5_unexpected_opcode_fatal (cmd_sk : Int) (service_id opcode len : Nat)
    (param : List Nat) (rspIn : Option (List Nat)) (fdIn : Option Int)
    (sendRet : Int) (data : List Nat) (cmsgs : List Cmsg)
    (hsk : 0 ≤ cmd_sk) (hsend : 0 ≤ sendRet)
    (hop : (parse_hdr (data.take (hal_msg_hdr_size +
      (rspIn.getD (List.replicate hal_msg_rsp_error_size 0)).length))).opcode
        ≠ opcode)
    (herr : (parse_hdr (data.take (hal_msg_hdr_size +
      (rspIn.getD (List.replicate hal_msg_rsp_error_size 0)).length))).opcode
        ≠ HAL_MSG_OP_ERROR) :
    hal_ipc_cmd cmd_sk service_id opcode len param rspIn fdIn sendRet
      (.ok data cmsgs) = .fatal := by
  have h1 : ¬ cmd_sk < 0 := by omega
  have h2 : ¬ sendRet < 0 := by omega
  simp only [hal_ipc_cmd, if_neg h1, if_neg h2, hal_ipc_cmd_resp]
  by_cases h3 : (List.take (hal_msg_hdr_size +
      (rspIn.getD (List.replicate hal_msg_rsp_error_size 0)).length)
        data).length < hal_msg_hdr_size
  · rw [if_pos h3]
  · rw [if_neg h3]
    by_cases h4 : (List.take (hal_msg_hdr_size +
        (rspIn.getD (List.replicate hal_msg_rsp_error_size 0)).length)
          data).length ≠ hal_msg_hdr_size +
        (parse_hdr (List.take (hal_msg_hdr_size +
          (rspIn.getD (List.replicate hal_msg_rsp_error_size 0)).length)
            data)).len
    · rw [if_pos h4]
    · rw [if_neg h4]
      rw [if_pos ⟨hop, herr⟩]

/-- C5 witness: a well-formed response whose opcode (9) matches neither the
request opcode (3) nor the reserved error opcode is fatal. -/
theorem C5_unexpected_opcode_witness :
    hal_ipc_cmd 4 1 3 0 [] (some []) none 0 (.ok [1, 9, 0, 0] []) =
      .fatal :=
  C5_unexpected_opcode_fatal 4 1 3 0 [] (some []) none 0 [1, 9, 0, 0] []
    (by decide) (by decide) (by decide) (by decide)

/-- C7: a received notification whose opcode is below the minimum valid
event opcode, or whose total length is shorter than one header, or whose
length does not match the header's declared length, takes the fatal path
before dispatch: the dispatch callback is never invoked with it. -/
theorem C7_malformed_notification_fatal (cmd_sk : Int) (data : List Nat)
    (cmsgs : List Cmsg) (hne : data ≠ [])
    (hviol : (data.take BLUEZ_HAL_MTU).length < hal_msg_hdr_size ∨
      (parse_hdr (data.take BLUEZ_HAL_MTU)).opcode < HAL_MSG_MINIMUM_EVENT ∨
      (data.take BLUEZ_HAL_MTU).length ≠
        hal_msg_hdr_size + (parse_hdr (data.take BLUEZ_HAL_MTU)).len) :
    notification_step cmd_sk (.ok data cmsgs) = .fatal := by
  have hlen : data.length ≠ 0 := fun h => hne (List.eq_nil_of_length_eq_zero h)
  have h0 : (data.take BLUEZ_HAL_MTU).length ≠ 0 := by
    rw [List.length_take]
    unfold BLUEZ_HAL_MTU
    omega
  simp only [notification_step, if_neg h0]
  by_cases h1 : (data.take BLUEZ_HAL_MTU).length < hal_msg_hdr_size
  · rw [if_pos h1]
  · rw [if_neg h1]
    by_cases h2 :
        (parse_hdr (data.take BLUEZ_HAL_MTU)).opcode < HAL_MSG_MINIMUM_EVENT
    · rw [if_pos h2]
    · rw [if_neg h2]
      have h3 : (data.take BLUEZ_HAL_MTU).length ≠
          hal_msg_hdr_size + (parse_hdr (data.take BLUEZ_HAL_MTU)).len := by
        rcases hviol with h | h | h
        · exact absurd h h1
        · exact absurd h h2
        · exact h
      rw [if_pos h3]

/-- C7 witness: a one-byte notification (shorter than a header), a
notification with opcode 5 (below the minimum event opcode), and a
notification declaring a one-byte body but carrying none are all fatal. -/
theorem C7_malformed_notification_witness :
    notification_step 4 (.ok [1] []) = .fatal ∧
    notification_step 4 (.ok [1, 5, 0, 0] []) = .fatal ∧
    notification_step 4 (.ok [1, 0x85, 1, 0] []) = .fatal :=
  ⟨C7_malformed_notification_fatal 4 [1] [] (by decide) (by decide),
   C7_malformed_notification_fatal 4 [1, 5, 0, 0] [] (by decide) (by decide),
   C7_malformed_notification_fatal 4 [1, 0x85, 1, 0] [] (by decide)
     (by decide)⟩

/-- C1 (code evaluation at the failing inputs): with the command socket
open, a well-formed matching response and a non-null `fd` slot, the
ancillary-data scan with its inverted `!cmsg` loop condition makes the call
(a) return success with the `fd` slot set to `-1` — not the passed
descriptor `7` — when exactly one `SCM_RIGHTS` descriptor is attached, and
(b) dereference the NULL `cmsg` pointer (undefined behavior) when no
descriptor is attached, instead of yielding the "none" value `-1`. -/
theorem C1_cmsg_loop_inverted :
    hal_ipc_cmd 4 1 3 0 [] (some []) (some 9) 0
      (.ok [1, 3, 0, 0]
        [{ cmsg_level := SOL_SOCKET, cmsg_type := SCM_RIGHTS, data := 7 }]) =
      .ret { status := 0, rspOut := some [], rspLenOut := some 0,
             fdOut := some (-1) } ∧
    hal_ipc_cmd 4 1 3 0 [] (some []) (some 9) 0 (.ok [1, 3, 0, 0] []) =
      .undef := by
  constructor <;> rfl

/-- C2 (code evaluation at the failing input): when every socket step
succeeds but `pthread_create` fails with the positive error number `11`
(`EAGAIN`), the `if (err < 0)` test at line 228 does not detect it:
`hal_ipc_init` returns `true` with both sockets open and no notification
thread running, instead of closing them and returning `false`. -/
theorem C2_pthread_create_failure_undetected :
    hal_ipc_init { socketRet := 3, bindRet := 0, listenRet := 0,
                   acceptCmd := { pollRet := 1, acceptRet := 4 },
                   acceptNotif := { pollRet := 1, acceptRet := 5 },
                   pthreadCreateRet := 11 } =
      { ok := true, cmd_sk := 4, notif_sk := 5, threadSpawned := false,
        openFds := [4, 5] } := by
  rfl

/-- C3 counterexample: a well-formed error response with status `11` to a
call whose buffer held `[7, 7]` returns status `11` but leaves the buffer
holding `[11, 7]` — the error body was received into the caller's buffer,
so its contents are not unchanged by the call. -/
theorem C3_counterexample_buffer_changed :
    hal_ipc_cmd 4 1 3 0 [] (some [7, 7]) none 0 (.ok [1, 0, 1, 0, 11] []) =
      .ret { status := 11, rspOut := some [11, 7], rspLenOut := some 2,
             fdOut := none } ∧
    [11, 7] ≠ [7, 7] := by
  constructor
  · rfl
  · decide

/-- C3 (amended): for every call with a caller-supplied response buffer
whose well-formed response carries the reserved error opcode, the call
returns the status embedded in the error body, leaves `*rsp_len` unchanged
(the response is never reported as populated), and the receive deposits the
error body into the leading bytes of the caller's buffer. -/
theorem C3_error_response_status (cmd_sk : Int) (service_id opcode len : Nat)
    (param : List Nat) (rspOrig : List Nat) (fdIn : Option Int)
    (sendRet : Int) (data : List Nat) (cmsgs : List Cmsg)
    (hsk : 0 ≤ cmd_sk) (hsend : 0 ≤ sendRet)
    (hlen : (List.take (hal_msg_hdr_size + rspOrig.length) data).length =
      hal_msg_hdr_size +
        (parse_hdr (List.take (hal_msg_hdr_size + rspOrig.length) data)).len)
    (hop : (parse_hdr (List.take (hal_msg_hdr_size + rspOrig.length)
      data)).opcode = HAL_MSG_OP_ERROR) :
    hal_ipc_cmd cmd_sk service_id opcode len param (some rspOrig) fdIn
      sendRet (.ok data cmsgs) =
    .ret { status :=
             (List.drop hal_msg_hdr_size
                 (List.take (hal_msg_hdr_size + rspOrig.length) data) ++
               List.drop (List.drop hal_msg_hdr_size
                 (List.take (hal_msg_hdr_size + rspOrig.length)
                   data)).length rspOrig).headD 0
           rspOut := some
             (List.drop hal_msg_hdr_size
                 (List.take (hal_msg_hdr_size + rspOrig.length) data) ++
               List.drop (List.drop hal_msg_hdr_size
                 (List.take (hal_msg_hdr_size + rspOrig.length)
                   data)).length rspOrig)
           rspLenOut := some rspOrig.length
           fdOut := fdIn } := by
  have h1 : ¬ cmd_sk < 0 := by omega
  have h2 : ¬ sendRet < 0 := by omega
  simp only [hal_ipc_cmd, if_neg h1, if_neg h2, hal_ipc_cmd_resp,
    Option.getD_some]
  rw [if_neg (by omega), if_neg (by omega), if_neg (by simp [hop]),
    if_pos hop]
  rfl

/-- C3 witness for the amended claim: the concrete error response
`[1, 0, 1, 0, 11]` against buffer `[7, 7]` yields status `11`, buffer
`[11, 7]` and unchanged length `2`. -/
theorem C3_error_response_status_witness :
    hal_ipc_cmd 4 1 3 0 [] (some [7, 7]) none 0 (.ok [1, 0, 1, 0, 11] []) =
      .ret { status := 11, rspOut := some [11, 7], rspLenOut := some 2,
             fdOut := none } := by
  have h := C3_error_response_status 4 1 3 0 [] [7, 7] none 0
    [1, 0, 1, 0, 11] [] (by decide) (by decide) (by decide) (by decide)
  simpa using h

/-- C4 counterexample: the wire record for request (service 1, opcode 3,
one payload byte) is 5 bytes, yet when `sendmsg` reports only 2 bytes
transferred — a partial send — the call is not fatal: it continues the
round trip and returns success off the subsequent response. -/
theorem C4_counterexample_partial_send_continues :
    (2 : Int) < ((cmd_wire 1 3 1 [170]).length : Int) ∧
    hal_ipc_cmd 4 1 3 1 [170] (some []) none 2 (.ok [1, 3, 0, 0] []) =
      .ret { status := 0, rspOut := some [], rspLenOut := some 0,
             fdOut := none } := by
  constructor
  · decide
  · rfl

/-- C4 (amended): the header plus payload is handed to `sendmsg` as the
single record `cmd_wire` (header bytes followed by the payload), and a
send that fails (negative return) is fatal, terminating the process; a
partial non-negative transfer count is not checked. -/
theorem C4_negative_send_fatal (cmd_sk : Int) (service_id opcode len : Nat)
    (param : List Nat) (rspIn : Option (List Nat)) (fdIn : Option Int)
    (sendRet : Int) (recv : RecvResult) (hsend : sendRet < 0) :
    cmd_wire service_id opcode len param =
      encode_hdr service_id opcode len ++ param.take len ∧
    hal_ipc_cmd cmd_sk service_id opcode len param rspIn fdIn sendRet recv =
      .fatal := by
  refine ⟨rfl, ?_⟩
  unfold hal_ipc_cmd
  by_cases h : cmd_sk < 0
  · rw [if_pos h]
  · rw [if_neg h, if_pos hsend]

/-- C4 witness for the amended claim: a failing send (`sendmsg` returned
`-1`) on an open socket is fatal. -/
theorem C4_negative_send_fatal_witness :
    hal_ipc_cmd 4 1 3 0 [] (some []) none (-1) (.ok [1, 3, 0, 0] []) =
      .fatal :=
  (C4_negative_send_fatal 4 1 3 0 [] (some []) none (-1)
    (.ok [1, 3, 0, 0] []) (by decide)).2

/-- C10: when `hal_ipc_cmd` is called with a non-null `fd` slot holding a
prior value `v` and the well-formed response carries the reserved error
opcode, the function returns before the descriptor-extraction step: the
`fd` slot still holds `v` after the call. -/
theorem C10_error_response_leaves_fd_slot (cmd_sk : Int)
    (service_id opcode len : Nat) (param : List Nat)
    (rspIn : Option (List Nat)) (v : Int) (sendRet : Int)
    (data : List Nat) (cmsgs : List Cmsg)
    (hsk : 0 ≤ cmd_sk) (hsend : 0 ≤ sendRet)
    (hlen : (List.take (hal_msg_hdr_size +
        (rspIn.getD (List.replicate hal_msg_rsp_error_size 0)).length)
          data).length =
      hal_msg_hdr_size +
        (parse_hdr (List.take (hal_msg_hdr_size +
          (rspIn.getD (List.replicate hal_msg_rsp_error_size 0)).length)
            data)).len)
    (hop : (parse_hdr (List.take (hal_msg_hdr_size +
        (rspIn.getD (List.replicate hal_msg_rsp_error_size 0)).length)
          data)).opcode = HAL_MSG_OP_ERROR) :
    (hal_ipc_cmd cmd_sk service_id opcode len param rspIn (some v) sendRet
      (.ok data cmsgs)).fdOut? = some (some v) := by
  have h1 : ¬ cmd_sk < 0 := by omega
  have h2 : ¬ sendRet < 0 := by omega
  simp only [hal_ipc_cmd, if_neg h1, if_neg h2, hal_ipc_cmd_resp]
  rw [if_neg (by omega), if_neg (by omega), if_neg (by simp [hop]),
    if_pos hop]
  rfl

/-- C10 witness: the concrete error response `[1, 0, 1, 0, 11]` to a call
whose `fd` slot held `5` leaves the slot holding `5`. -/
theorem C10_error_response_leaves_fd_slot_witness :
    (hal_ipc_cmd 4 1 3 0 [] (some [7]) (some 5) 0
      (.ok [1, 0, 1, 0, 11] [])).fdOut? = some (some 5) :=
  C10_error_response_leaves_fd_slot 4 1 3 0 [] (some [7]) 5 0
    [1, 0, 1, 0, 11] [] (by decide) (by decide) (by decide) (by decide)

end HalIpc
